import Mathlib

/-!
# Verification of the claude-code-switch configuration tool

Shallow embedding of the core logic of `index.js` (configuration switching
for a CLI assistant): the settings merger `saveSettingsPreservingHooks`, the
active-config resolver `getCurrentConfig`, and the `addConfig` / `removeConfig`
workflows, together with proofs of their specified properties.

JSON documents are modelled by the inductive type `JValue`.  JavaScript
objects are association lists of string keys; `undefined` models the JavaScript
value `undefined` (in particular the result of reading an absent property).
-/

set_option autoImplicit false

namespace CCS

/-- A JavaScript/JSON value as manipulated by the tool.  `undefined` is the
JavaScript `undefined` (absent property); it never occurs in a document
produced by `JSON.parse`. -/
inductive JValue where
  | str (s : String)
  | num (n : Int)
  | bool (b : Bool)
  | null
  | undefined
  | arr (elems : List JValue)
  | obj (fields : List (String × JValue))

namespace JValue

/-- First-occurrence lookup in an object's field list; absent keys read as
`undefined`, matching JavaScript property access on plain objects. -/
def getField : List (String × JValue) → String → JValue
  | [], _ => .undefined
  | (k, v) :: rest, key => if k = key then v else getField rest key

/-- JavaScript property assignment `o[key] = v` on a plain object: replace the
value of an existing key in place, or append a new key at the end. -/
def setField : List (String × JValue) → String → JValue → List (String × JValue)
  | [], key, v => [(key, v)]
  | (k, w) :: rest, key, v =>
      if k = key then (k, v) :: rest else (k, w) :: setField rest key v

/-- Property access `v.key`.  On a non-object it yields `undefined`
(accessing a named property of a primitive or array member name not
present; the tool only reads named properties, never array indices). -/
def get : JValue → String → JValue
  | .obj fields, key => getField fields key
  | _, _ => .undefined

/-- JavaScript truthiness: `undefined`, `null`, `false`, `0` and `""` are
falsy; every object and array is truthy. -/
def truthy : JValue → Bool
  | .str s => !(s == "")
  | .num n => !(n == 0)
  | .bool b => b
  | .null => false
  | .undefined => false
  | .arr _ => true
  | .obj _ => true

/-- JavaScript strict equality `===` restricted to values read out of parsed
JSON documents: primitives compare by value; two object or array values read
from distinct `JSON.parse` results are distinct references, hence never
strictly equal. -/
def strictEq : JValue → JValue → Bool
  | .str a, .str b => a == b
  | .num a, .num b => a == b
  | .bool a, .bool b => a == b
  | .null, .null => true
  | .undefined, .undefined => true
  | _, _ => false

/-- `Object.keys`: own enumerable keys of an object; index strings for
strings and arrays; empty for the remaining primitives. -/
def jsKeys : JValue → List String
  | .obj fields => fields.map Prod.fst
  | .str s => (List.range s.length).map toString
  | .arr elems => (List.range elems.length).map toString
  | _ => []

end JValue

open JValue

/-- Credential extraction of `saveSettingsPreservingHooks` (index.js lines
126-137): if `selectedConfig.config` and `selectedConfig.config.env` are
truthy, read `ANTHROPIC_AUTH_TOKEN` / `ANTHROPIC_BASE_URL` from the nested
`env` (possibly obtaining `undefined`); otherwise, if the flat `authToken`
and `baseUrl` are both truthy, use those; otherwise throw (modelled as
`none`). -/
def extractCreds (selectedConfig : JValue) : Option (JValue × JValue) :=
  let cfg := selectedConfig.get "config"
  if truthy cfg && truthy (cfg.get "env") then
    some ((cfg.get "env").get "ANTHROPIC_AUTH_TOKEN",
          (cfg.get "env").get "ANTHROPIC_BASE_URL")
  else if truthy (selectedConfig.get "authToken") &&
          truthy (selectedConfig.get "baseUrl") then
    some (selectedConfig.get "authToken", selectedConfig.get "baseUrl")
  else
    none

/-- In-place mutation `settings.env[key] = v` (index.js lines 141-142): the
`env` property is mutated when it is an object; assigning a named property of
a primitive is silently ignored in sloppy mode, and a named property set on
an array is dropped by `JSON.stringify`, so in both cases the persisted
document is unchanged. -/
def setEnvField (fields : List (String × JValue)) (key : String) (v : JValue) :
    List (String × JValue) :=
  match getField fields "env" with
  | .obj envFields => setField fields "env" (.obj (setField envFields key v))
  | _ => fields

/-- The settings merger `saveSettingsPreservingHooks` (index.js lines
115-150), acting on the field list of the current settings document:
ensure a truthy `env` (lines 121-123), extract the credentials (lines
126-137, aborting with exit code 1 on failure — modelled as `none`), then
update exactly `_configName`, `env.ANTHROPIC_AUTH_TOKEN` and
`env.ANTHROPIC_BASE_URL` (lines 140-142) and persist. -/
def saveSettingsPreservingHooks (selectedConfig : JValue)
    (currentSettings : List (String × JValue)) :
    Option (List (String × JValue)) :=
  let settings1 :=
    if truthy (getField currentSettings "env") then currentSettings
    else setField currentSettings "env" (.obj [])
  match extractCreds selectedConfig with
  | none => none
  | some (authToken, baseUrl) =>
      let settings2 := setField settings1 "_configName" (selectedConfig.get "name")
      let settings3 := setEnvField settings2 "ANTHROPIC_AUTH_TOKEN" authToken
      let settings4 := setEnvField settings3 "ANTHROPIC_BASE_URL" baseUrl
      some settings4

/-- The name-match predicate of `getCurrentConfig` (index.js line 194):
`config.name === settings._configName`. -/
def nameMatch (settings config : JValue) : Bool :=
  strictEq (config.get "name") (settings.get "_configName")

/-- The credential-fallback predicate of `getCurrentConfig` (index.js lines
201-209): entries with a falsy `config` property are skipped; otherwise the
settings' `env` and the entry's `config.env` (each replaced by an empty object when
falsy) must agree strictly on `ANTHROPIC_BASE_URL` and
`ANTHROPIC_AUTH_TOKEN`. -/
def valueMatch (settings config : JValue) : Bool :=
  if !truthy (config.get "config") then false
  else
    let currentEnv := if truthy (settings.get "env") then settings.get "env" else .obj []
    let configEnv :=
      if truthy ((config.get "config").get "env") then (config.get "config").get "env"
      else .obj []
    strictEq (currentEnv.get "ANTHROPIC_BASE_URL") (configEnv.get "ANTHROPIC_BASE_URL") &&
    strictEq (currentEnv.get "ANTHROPIC_AUTH_TOKEN") (configEnv.get "ANTHROPIC_AUTH_TOKEN")

/-- The active-config resolver `getCurrentConfig` (index.js lines 182-210):
return `null` when the settings document is falsy or has no keys; otherwise
look for a name match when `_configName` is truthy, and fall back to the
credential match. -/
def getCurrentConfig (settings : JValue) (apiConfigs : List JValue) :
    Option JValue :=
  if !truthy settings || (jsKeys settings).length == 0 then none
  else
    let byName :=
      if truthy (settings.get "_configName") then apiConfigs.find? (nameMatch settings)
      else none
    match byName with
    | some matched => some matched
    | none => apiConfigs.find? (valueMatch settings)

/-- JavaScript `String.prototype.trim()`: strip leading and trailing
whitespace, modelled executably over the string's character list. -/
def jsTrim (s : String) : String :=
  .mk (((s.data.dropWhile Char.isWhitespace).reverse.dropWhile
    Char.isWhitespace).reverse)

/-- The name validator of `addConfig` (index.js lines 561-570): the trimmed
name must be non-empty and must not be strictly equal to the `name` of any
existing entry. -/
def validateName (apiConfigs : List JValue) (input : String) : Bool :=
  if jsTrim input == "" then false
  else if apiConfigs.any (fun config => strictEq (config.get "name") (.str (jsTrim input))) then
    false
  else true

/-- The configuration object built by `addConfig` (index.js lines 602-621)
from the validated answers. -/
def newConfigOf (name baseUrl authToken model : String) : JValue :=
  let envObj : JValue := .obj
    [("ANTHROPIC_AUTH_TOKEN", .str (jsTrim authToken)),
     ("ANTHROPIC_BASE_URL", .str (jsTrim baseUrl)),
     ("CLAUDE_CODE_DISABLE_NONESSENTIAL_TRAFFIC", .str "1")]
  let permissions : JValue := .obj [("allow", .arr []), ("deny", .arr [])]
  let baseFields := [("env", envObj), ("permissions", permissions)]
  let cfgFields :=
    if jsTrim model == "" then baseFields
    else baseFields ++ [("model", .str (jsTrim model))]
  .obj [("name", .str (jsTrim name)), ("config", .obj cfgFields)]

/-- The add workflow `addConfig` (index.js lines 554-657) as a state
transition on the stored configuration list: a rejected answer (empty or
duplicate name, empty URL or token) re-prompts and performs no save
(modelled as `none`); an accepted one appends the new configuration and
saves. -/
def addConfig (apiConfigs : List JValue) (name baseUrl authToken model : String) :
    Option (List JValue) :=
  if !validateName apiConfigs name then none
  else if jsTrim baseUrl == "" then none
  else if jsTrim authToken == "" then none
  else some (apiConfigs ++ [newConfigOf name baseUrl authToken model])

/-- `apiConfigs.splice(selectedIndex, 1)` (index.js line 731): remove the
single element at the 0-based `selectedIndex`. -/
def spliceOne (apiConfigs : List JValue) (selectedIndex : Nat) : List JValue :=
  apiConfigs.take selectedIndex ++ apiConfigs.drop (selectedIndex + 1)

/-- The remove workflow `removeConfig` (index.js lines 662-751) at the
1-based ordinal `i` displayed by its menu (menu entry `i` carries the
0-based value `i - 1`): the confirmed deletion splices that index out and
saves the result. -/
def removeConfig (apiConfigs : List JValue) (i : Nat) : List JValue :=
  spliceOne apiConfigs (i - 1)

/-- Outcome of one selection step of `listAndSelectConfig`. -/
inductive SelectOutcome where
  | invalidIndex
  | alreadyActive
  | proceed (selected : JValue)

/-- Whether a selection outcome goes on to rewrite the settings file:
only `proceed` reaches `processSelectedConfig`, which (on confirmation)
calls `saveSettingsPreservingHooks`. -/
def SelectOutcome.writesSettings : SelectOutcome → Bool
  | .proceed _ => true
  | _ => false

/-- The numeric-entry selection step of `listAndSelectConfig` (index.js lines
288-308): an ordinal outside `[1, length]` is rejected; picking the entry
whose `name` strictly equals the resolver's current configuration's `name`
reports "already active" and returns without saving; otherwise the selected
entry proceeds to `processSelectedConfig`. -/
def listSelectByOrdinal (settings : JValue) (apiConfigs : List JValue) (i : Nat) :
    SelectOutcome :=
  if i < 1 || apiConfigs.length < i then .invalidIndex
  else
    match apiConfigs[i - 1]? with
    | none => .invalidIndex
    | some selected =>
        match getCurrentConfig settings apiConfigs with
        | some currentConfig =>
            if strictEq (selected.get "name") (currentConfig.get "name") then
              .alreadyActive
            else .proceed selected
        | none => .proceed selected

/-! ## Persistence model for the settings writer

`saveSettings` (index.js lines 89-96) and the persistence step of
`saveSettingsPreservingHooks` (line 145) are direct `fs.writeFileSync`
calls on the settings path; on failure they print and `process.exit(1)`. -/

/-- A file-system side effect issued by the writer. -/
inductive FsOp where
  | writeFile (path : String) (content : String)
  | rename (src : String) (dst : String)

/-- `path.join(os.homedir(), ".claude", "settings.json")` (index.js lines
23-25). -/
def settingsFilePath (homedir : String) : String :=
  homedir ++ "/.claude/settings.json"

/-- The file-system operations performed by `saveSettings` (index.js line
91): a single direct write to the settings path, with no temporary file and
no rename. -/
def saveSettingsOps (homedir serialized : String) : List FsOp :=
  [.writeFile (settingsFilePath homedir) serialized]

/-- The file-system operations performed by the persistence step of
`saveSettingsPreservingHooks` (index.js line 145): likewise a single direct
write to the settings path. -/
def saveSettingsPreservingHooksOps (homedir serialized : String) : List FsOp :=
  [.writeFile (settingsFilePath homedir) serialized]

/-- The process exit code taken when either writer's `writeFileSync` throws
(index.js lines 92-95 and 146-149). -/
def writeFailureExitCode : Nat := 1

/-- Modelled from the spec: the atomic-replace discipline of §7 ("write to a
temp location and rename, or equivalent atomic-replace discipline") — every
content write targets a path other than the target, and the target is
installed by a rename. -/
def atomicReplaceDiscipline (ops : List FsOp) (target : String) : Bool :=
  ops.all (fun op => match op with
    | .writeFile p _ => p != target
    | .rename _ _ => true) &&
  ops.any (fun op => match op with
    | .rename _ dst => dst == target
    | _ => false)

/-! ## Spec-side shape predicates for credential extraction

These follow the spec's words ("accepting either the nested shape
(config.env.ANTHROPIC_AUTH_TOKEN / config.env.ANTHROPIC_BASE_URL) or the
flat shape (authToken / baseUrl at the top level) ... neither shape yields
both values"), to be compared with `extractCreds` from the source. -/

/-- Modelled from the spec: the nested shape yields both values — both
`config.env.ANTHROPIC_AUTH_TOKEN` and `config.env.ANTHROPIC_BASE_URL` are
truthy values. -/
def specNestedYieldsBoth (selectedConfig : JValue) : Bool :=
  truthy (((selectedConfig.get "config").get "env").get "ANTHROPIC_AUTH_TOKEN") &&
  truthy (((selectedConfig.get "config").get "env").get "ANTHROPIC_BASE_URL")

/-- Modelled from the spec: the flat shape yields both values — both
top-level `authToken` and `baseUrl` are truthy values. -/
def specFlatYieldsBoth (selectedConfig : JValue) : Bool :=
  truthy (selectedConfig.get "authToken") && truthy (selectedConfig.get "baseUrl")

/-- The code's actual failure condition for credential extraction: no truthy
nested `config.env`, and not both flat fields truthy. -/
def extractFails (selectedConfig : JValue) : Bool :=
  !(truthy (selectedConfig.get "config") &&
    truthy ((selectedConfig.get "config").get "env")) &&
  !specFlatYieldsBoth selectedConfig

/-! ## Basic lemmas about field access and update -/

theorem getField_setField_self (fields : List (String × JValue)) (key : String)
    (v : JValue) : getField (setField fields key v) key = v := by
  induction fields with
  | nil => simp [getField, setField]
  | cons hd tl ih =>
      obtain ⟨k, w⟩ := hd
      by_cases h : k = key
      · simp [getField, setField, h]
      · simp [getField, setField, h, ih]

theorem getField_setField_other (fields : List (String × JValue))
    (key key' : String) (v : JValue) (h : key' ≠ key) :
    getField (setField fields key v) key' = getField fields key' := by
  induction fields with
  | nil =>
      have hne : ¬ (key = key') := fun hh => h hh.symm
      simp only [setField, getField]
      rw [if_neg hne]
  | cons hd tl ih =>
      obtain ⟨k, w⟩ := hd
      simp only [setField]
      by_cases hk : k = key
      · rw [if_pos hk]
        have hne : ¬ (k = key') := fun hh => h (hh.symm.trans hk)
        simp only [getField]
        rw [if_neg hne, if_neg hne]
      · rw [if_neg hk]
        simp only [getField]
        by_cases hk' : k = key'
        · rw [if_pos hk', if_pos hk']
        · rw [if_neg hk', if_neg hk', ih]

theorem getField_setEnvField_other (fields : List (String × JValue))
    (key k : String) (v : JValue) (h : k ≠ "env") :
    getField (setEnvField fields key v) k = getField fields k := by
  unfold setEnvField
  split
  · exact getField_setField_other _ _ _ _ h
  · rfl

theorem getField_ne_undef_nonempty (fields : List (String × JValue))
    (key : String) (h : getField fields key ≠ .undefined) : fields ≠ [] := by
  intro hnil
  subst hnil
  exact h rfl

theorem setEnvField_of_obj (fields envFields : List (String × JValue))
    (key : String) (v : JValue) (h : getField fields "env" = .obj envFields) :
    setEnvField fields key v = setField fields "env" (.obj (setField envFields key v)) := by
  unfold setEnvField
  rw [h]

/-- A settings document with a string-valued `_configName` is a truthy
object with at least one key, so the resolver's empty-document guard
(index.js lines 186-188) does not fire on it. -/
theorem guard_not_fired_of_configName (settings : JValue) (n : String)
    (hname : settings.get "_configName" = .str n) :
    (!truthy settings || (jsKeys settings).length == 0) = false := by
  cases settings with
  | obj fields =>
      have hname2 : getField fields "_configName" = .str n := hname
      have hne : fields ≠ [] :=
        getField_ne_undef_nonempty fields "_configName"
          (by rw [hname2]; intro hh; nomatch hh)
      have hlen : (jsKeys (JValue.obj fields)).length ≠ 0 := by
        simp only [jsKeys, List.length_map]
        exact fun hh => hne (List.length_eq_zero.mp hh)
      simp [truthy, hlen]
  | str s => nomatch hname
  | num m => nomatch hname
  | bool b => nomatch hname
  | null => nomatch hname
  | undefined => nomatch hname
  | arr elems => nomatch hname

/-! ## Concrete scenario values used by the witnesses -/

/-- A stored configuration named "A" with base URL `https://x` and token
`sk-aaaa`, in the nested shape. -/
def configA : JValue := .obj
  [("name", .str "A"),
   ("config", .obj [("env", .obj
     [("ANTHROPIC_AUTH_TOKEN", .str "sk-aaaa"),
      ("ANTHROPIC_BASE_URL", .str "https://x")])])]

/-- A stored configuration named "B" with base URL `https://y` and token
`sk-bbbb`, in the nested shape. -/
def configB : JValue := .obj
  [("name", .str "B"),
   ("config", .obj [("env", .obj
     [("ANTHROPIC_AUTH_TOKEN", .str "sk-bbbb"),
      ("ANTHROPIC_BASE_URL", .str "https://y")])])]

/-- A flat-shape configuration named "F" carrying the credentials of
`configA` at top level, with no `config` property. -/
def flatConfigF : JValue := .obj
  [("name", .str "F"),
   ("authToken", .str "sk-aaaa"),
   ("baseUrl", .str "https://x")]

/-- A settings document whose `_configName` is "B" while its `env`
credentials are those of `configA`. -/
def settingsAB : JValue := .obj
  [("_configName", .str "B"),
   ("env", .obj
     [("ANTHROPIC_AUTH_TOKEN", .str "sk-aaaa"),
      ("ANTHROPIC_BASE_URL", .str "https://x")])]

/-- A settings document with no `_configName`, whose `env` credentials are
those of `configA`. -/
def settingsEnvX : JValue := .obj
  [("env", .obj
     [("ANTHROPIC_AUTH_TOKEN", .str "sk-aaaa"),
      ("ANTHROPIC_BASE_URL", .str "https://x")])]

/-! ## Claim theorems -/

/-- C10: for every configuration list, a settings document that parses to an
object with zero keys makes `getCurrentConfig` return null immediately,
without consulting the configuration list by name or by value. -/
theorem C10_empty_settings_resolves_null (apiConfigs : List JValue) :
    getCurrentConfig (.obj []) apiConfigs = none := rfl

/-- C9: the credential-fallback of the resolver skips any stored entry whose
`config` property is falsy (in particular a flat-shape entry, which has no
`config` at all): `valueMatch` rejects it for every settings document, so the
fallback scan can never return it. -/
theorem C9_value_match_skips_flat_entries (settings : JValue)
    (apiConfigs : List JValue) (config : JValue)
    (hflat : truthy (config.get "config") = false) :
    valueMatch settings config = false ∧
    apiConfigs.find? (valueMatch settings) ≠ some config := by
  have hvm : valueMatch settings config = false := by
    unfold valueMatch
    rw [hflat]
    rfl
  refine ⟨hvm, fun hfind => ?_⟩
  have := List.find?_some hfind
  rw [hvm] at this
  nomatch this

/-- C9 witness: the flat-shape entry `flatConfigF`, whose credentials equal
the `env` values of `settingsEnvX`, is still not returned by the credential
fallback. -/
theorem C9_witness :
    truthy (flatConfigF.get "config") = false ∧
    (valueMatch settingsEnvX flatConfigF = false ∧
      [flatConfigF].find? (valueMatch settingsEnvX) ≠ some flatConfigF) :=
  ⟨rfl, C9_value_match_skips_flat_entries settingsEnvX [flatConfigF] flatConfigF rfl⟩

/-- C5: the resolver returns null whenever no stored configuration matches
the settings document by name or by credential value — in particular for the
empty configuration list, where the hypothesis holds vacuously. -/
theorem C5_resolver_returns_null (settings : JValue) (apiConfigs : List JValue)
    (hno : ∀ config ∈ apiConfigs,
      nameMatch settings config = false ∧ valueMatch settings config = false) :
    getCurrentConfig settings apiConfigs = none := by
  have hnone : apiConfigs.find? (nameMatch settings) = none :=
    List.find?_eq_none.mpr fun config hc => by
      rw [(hno config hc).1]
      exact Bool.false_ne_true
  have hvnone : apiConfigs.find? (valueMatch settings) = none :=
    List.find?_eq_none.mpr fun config hc => by
      rw [(hno config hc).2]
      exact Bool.false_ne_true
  cases hguard : (!truthy settings || (jsKeys settings).length == 0) with
  | true => simp [getCurrentConfig, hguard]
  | false =>
      cases hcn : truthy (settings.get "_configName") with
      | true => simp [getCurrentConfig, hguard, hcn, hnone, hvnone]
      | false => simp [getCurrentConfig, hguard, hcn, hvnone]

/-- C5 witness: on the empty configuration list the resolver returns null. -/
theorem C5_witness :
    (∀ config ∈ ([] : List JValue),
      nameMatch settingsEnvX config = false ∧
      valueMatch settingsEnvX config = false) ∧
    getCurrentConfig settingsEnvX [] = none :=
  ⟨fun _ hc => absurd hc (List.not_mem_nil _),
   C5_resolver_returns_null settingsEnvX []
     (fun _ hc => absurd hc (List.not_mem_nil _))⟩

/-- C2: when the settings document carries a non-empty `_configName` and the
configuration list contains an entry of exactly that name, the resolver
returns the first such entry, whatever the credential values are — the name
match runs before (and so takes priority over) the value match. -/
theorem C2_name_match_takes_priority (settings : JValue) (apiConfigs : List JValue)
    (n : String) (matched : JValue)
    (hname : settings.get "_configName" = .str n) (hn : n ≠ "")
    (hfound : apiConfigs.find? (fun config => strictEq (config.get "name") (.str n)) =
      some matched) :
    getCurrentConfig settings apiConfigs = some matched := by
  have hguard := guard_not_fired_of_configName settings n hname
  have htr : truthy (settings.get "_configName") = true := by
    rw [hname]
    show (!(n == "")) = true
    rw [Bool.not_eq_true']
    exact beq_eq_false_iff_ne.mpr hn
  have hfind : apiConfigs.find? (nameMatch settings) = some matched := by
    have hpred : nameMatch settings = fun config => strictEq (config.get "name") (.str n) := by
      funext config
      unfold nameMatch
      rw [hname]
    rw [hpred]
    exact hfound
  simp [getCurrentConfig, hguard, htr, hfind]

/-- C2 witness: the spec's scenario — configurations "A" and "B", settings
naming "B" while carrying the credentials of "A"; the credential fallback
points at "A" (`valueMatch` accepts it) but the resolver returns "B". -/
theorem C2_witness :
    settingsAB.get "_configName" = .str "B" ∧ ("B" : String) ≠ "" ∧
    ([configA, configB].find?
        (fun config => strictEq (config.get "name") (.str "B")) = some configB) ∧
    valueMatch settingsAB configA = true ∧
    getCurrentConfig settingsAB [configA, configB] = some configB :=
  ⟨rfl, by decide, rfl, rfl,
   C2_name_match_takes_priority settingsAB [configA, configB] "B" configB rfl
     (by decide) rfl⟩

/-- C1: for every settings document and every selected configuration from
which credentials can be extracted, the merger changes only `_configName`
and the two managed `env` entries: every other top-level key keeps its value
(hence its entire nested structure), and when `env` was an object, every
other key inside `env` keeps its value. -/
theorem C1_merger_changes_only_managed_fields (selectedConfig : JValue)
    (currentSettings : List (String × JValue)) (authToken baseUrl : JValue)
    (hext : extractCreds selectedConfig = some (authToken, baseUrl)) :
    ∃ saved, saveSettingsPreservingHooks selectedConfig currentSettings = some saved ∧
      (∀ k, k ≠ "_configName" → k ≠ "env" →
        getField saved k = getField currentSettings k) ∧
      (∀ envFields, getField currentSettings "env" = .obj envFields →
        ∃ savedEnv, getField saved "env" = .obj savedEnv ∧
          ∀ ek, ek ≠ "ANTHROPIC_AUTH_TOKEN" → ek ≠ "ANTHROPIC_BASE_URL" →
            getField savedEnv ek = getField envFields ek) := by
  simp only [saveSettingsPreservingHooks, hext]
  refine ⟨_, rfl, ?_, ?_⟩
  · intro k hk1 hk2
    rw [getField_setEnvField_other _ _ _ _ hk2,
        getField_setEnvField_other _ _ _ _ hk2,
        getField_setField_other _ _ _ _ hk1]
    by_cases henv : truthy (getField currentSettings "env") = true
    · rw [if_pos henv]
    · rw [if_neg henv, getField_setField_other _ _ _ _ hk2]
  · intro envFields henv
    have htr : truthy (getField currentSettings "env") = true := by rw [henv]; rfl
    rw [if_pos htr]
    have h2 : getField (setField currentSettings "_configName"
        (selectedConfig.get "name")) "env" = .obj envFields := by
      rw [getField_setField_other _ _ _ _ (by decide : ("env" : String) ≠ "_configName")]
      exact henv
    rw [setEnvField_of_obj _ _ "ANTHROPIC_AUTH_TOKEN" authToken h2]
    have h3 : getField (setField (setField currentSettings "_configName"
        (selectedConfig.get "name")) "env"
        (.obj (setField envFields "ANTHROPIC_AUTH_TOKEN" authToken))) "env" =
        .obj (setField envFields "ANTHROPIC_AUTH_TOKEN" authToken) :=
      getField_setField_self _ _ _
    rw [setEnvField_of_obj _ _ "ANTHROPIC_BASE_URL" baseUrl h3]
    refine ⟨_, getField_setField_self _ _ _, ?_⟩
    intro ek he1 he2
    rw [getField_setField_other _ _ _ _ he2, getField_setField_other _ _ _ _ he1]

/-- The field list of a settings document carrying user customizations, used
by the C1 witness. -/
def settingsFieldsUser : List (String × JValue) :=
  [("_configName", .str "A"),
   ("env", .obj [("ANTHROPIC_AUTH_TOKEN", .str "sk-aaaa"),
                 ("ANTHROPIC_BASE_URL", .str "https://x"),
                 ("CLAUDE_CODE_DISABLE_NONESSENTIAL_TRAFFIC", .str "1")]),
   ("model", .str "opus"),
   ("hooks", .obj [("x", .num 1)]),
   ("permissions", .obj [("allow", .arr []), ("deny", .arr [])])]

/-- C1 witness: switching `settingsFieldsUser` to `configB` extracts the
nested credentials and preserves every unmanaged key, including the extra
`env` entry. -/
theorem C1_witness :
    extractCreds configB = some (.str "sk-bbbb", .str "https://y") ∧
    (∃ saved, saveSettingsPreservingHooks configB settingsFieldsUser = some saved ∧
      (∀ k, k ≠ "_configName" → k ≠ "env" →
        getField saved k = getField settingsFieldsUser k) ∧
      (∀ envFields, getField settingsFieldsUser "env" = .obj envFields →
        ∃ savedEnv, getField saved "env" = .obj savedEnv ∧
          ∀ ek, ek ≠ "ANTHROPIC_AUTH_TOKEN" → ek ≠ "ANTHROPIC_BASE_URL" →
            getField savedEnv ek = getField envFields ek)) :=
  ⟨rfl, C1_merger_changes_only_managed_fields configB settingsFieldsUser _ _ rfl⟩

/-- The C3 counterexample configuration: a nested `config.env` object that
contains neither credential, with no flat fields. -/
def configEmptyEnv : JValue := .obj
  [("name", .str "x"), ("config", .obj [("env", .obj [])])]

/-- C3 counterexample: for `configEmptyEnv` neither shape yields both
values, yet extraction does not fail — it takes the nested branch and
extracts `undefined` for both fields, refuting "fails exactly when neither
shape yields both values". -/
theorem C3_counterexample :
    specNestedYieldsBoth configEmptyEnv = false ∧
    specFlatYieldsBoth configEmptyEnv = false ∧
    extractCreds configEmptyEnv ≠ none := by
  refine ⟨rfl, rfl, fun h => ?_⟩
  have h2 : (some (JValue.undefined, JValue.undefined) : Option (JValue × JValue)) = none := h
  nomatch h2

/-- C3 (amended): extraction fails exactly when the configuration has no
truthy nested `config.env` and its flat `authToken`/`baseUrl` are not both
truthy; in particular a truthy nested `config.env` object is accepted even
when it yields neither value. -/
theorem C3_extract_failure_condition (selectedConfig : JValue) :
    extractCreds selectedConfig = none ↔ extractFails selectedConfig = true := by
  simp only [extractCreds, extractFails, specFlatYieldsBoth]
  cases hA : (truthy (selectedConfig.get "config") &&
      truthy ((selectedConfig.get "config").get "env")) with
  | true => simp [hA]
  | false =>
      cases hB : (truthy (selectedConfig.get "authToken") &&
          truthy (selectedConfig.get "baseUrl")) with
      | true => simp [hA, hB]
      | false => simp [hA, hB]

/-- C4: the settings writers are not atomic — `saveSettings` and the
persistence step of `saveSettingsPreservingHooks` each issue a single
direct write to the settings path and never a rename, so the spec's
atomic-replace discipline fails on their operation traces; the write-failure
exit code is nevertheless non-zero, as claimed. -/
theorem C4_settings_write_not_atomic (homedir serialized : String) :
    atomicReplaceDiscipline (saveSettingsOps homedir serialized)
      (settingsFilePath homedir) = false ∧
    atomicReplaceDiscipline (saveSettingsPreservingHooksOps homedir serialized)
      (settingsFilePath homedir) = false ∧
    writeFailureExitCode ≠ 0 := by
  refine ⟨?_, ?_, by decide⟩ <;>
    simp [atomicReplaceDiscipline, saveSettingsOps, saveSettingsPreservingHooksOps]

/-- C6: removing at 1-based ordinal `i` (within range) deletes exactly the
`i`-th element: the length drops by one, entries before position `i - 1` are
unchanged, and each later entry shifts down by exactly one place, so the
remaining elements keep their identity and relative order. -/
theorem C6_remove_deletes_exactly_ith (apiConfigs : List JValue) (i : Nat)
    (h1 : 1 ≤ i) (h2 : i ≤ apiConfigs.length) :
    (removeConfig apiConfigs i).length = apiConfigs.length - 1 ∧
    (∀ j, j < i - 1 → (removeConfig apiConfigs i)[j]? = apiConfigs[j]?) ∧
    (∀ j, i - 1 ≤ j → (removeConfig apiConfigs i)[j]? = apiConfigs[j + 1]?) := by
  unfold removeConfig spliceOne
  refine ⟨?_, ?_, ?_⟩
  · rw [List.length_append, List.length_take, List.length_drop]
    omega
  · intro j hj
    rw [List.getElem?_append_left (by rw [List.length_take]; omega)]
    exact List.getElem?_take_of_lt (by omega)
  · intro j hj
    rw [List.getElem?_append_right (by rw [List.length_take]; omega)]
    rw [List.getElem?_drop, List.length_take]
    congr 1
    omega

/-- C6 witness: removing ordinal 2 from a three-element list keeps elements
1 and 3, in order. -/
theorem C6_witness :
    1 ≤ 2 ∧ 2 ≤ [configA, configB, flatConfigF].length ∧
    ((removeConfig [configA, configB, flatConfigF] 2).length =
        [configA, configB, flatConfigF].length - 1 ∧
      (∀ j, j < 2 - 1 → (removeConfig [configA, configB, flatConfigF] 2)[j]? =
        [configA, configB, flatConfigF][j]?) ∧
      (∀ j, 2 - 1 ≤ j → (removeConfig [configA, configB, flatConfigF] 2)[j]? =
        [configA, configB, flatConfigF][j + 1]?)) :=
  ⟨by decide, by decide,
   C6_remove_deletes_exactly_ith [configA, configB, flatConfigF] 2
     (by decide) (by decide)⟩

/-- C7: the add workflow rejects a candidate whose trimmed name is strictly
equal to an existing entry's name, and the rejection performs no write, so
the stored list is unchanged. -/
theorem C7_add_rejects_duplicate_name (apiConfigs : List JValue) (input : String)
    (config : JValue) (hmem : config ∈ apiConfigs)
    (hname : config.get "name" = .str (jsTrim input)) :
    validateName apiConfigs input = false ∧
    ∀ baseUrl authToken model,
      addConfig apiConfigs input baseUrl authToken model = none := by
  have hval : validateName apiConfigs input = false := by
    unfold validateName
    cases hemp : (jsTrim input == "") with
    | true => rfl
    | false =>
        have hany : apiConfigs.any
            (fun config => strictEq (config.get "name") (.str (jsTrim input))) = true :=
          List.any_eq_true.mpr ⟨config, hmem, by rw [hname]; simp [strictEq]⟩
        simp [hemp, hany]
  refine ⟨hval, fun baseUrl authToken model => ?_⟩
  unfold addConfig
  rw [hval]
  rfl

/-- C7 witness: adding a configuration named "A " (which trims to the
existing name "A") is rejected and performs no write, while the
differently-cased name "a" passes the duplicate check. -/
theorem C7_witness :
    configA ∈ [configA, configB] ∧
    configA.get "name" = .str (jsTrim "A ") ∧
    validateName [configA, configB] "a" = true ∧
    (validateName [configA, configB] "A " = false ∧
      ∀ baseUrl authToken model,
        addConfig [configA, configB] "A " baseUrl authToken model = none) :=
  ⟨List.mem_cons_self _ _, rfl, rfl,
   C7_add_rejects_duplicate_name [configA, configB] "A " configA
     (List.mem_cons_self _ _) rfl⟩

/-- C8: picking the ordinal of the configuration the resolver already
reports active makes the selection step report "already active" and return
without rewriting the settings file. -/
theorem C8_selecting_active_config_is_noop (settings : JValue)
    (apiConfigs : List JValue) (i : Nat) (selected currentConfig : JValue)
    (h1 : 1 ≤ i)
    (hsel : apiConfigs[i - 1]? = some selected)
    (hcur : getCurrentConfig settings apiConfigs = some currentConfig)
    (hname : strictEq (selected.get "name") (currentConfig.get "name") = true) :
    listSelectByOrdinal settings apiConfigs i = .alreadyActive ∧
    (listSelectByOrdinal settings apiConfigs i).writesSettings = false := by
  have hlt : i - 1 < apiConfigs.length := by
    by_contra hge
    rw [List.getElem?_eq_none (by omega)] at hsel
    nomatch hsel
  have hguard : (decide (i < 1) || decide (apiConfigs.length < i)) = false := by
    simp only [Bool.or_eq_false_iff, decide_eq_false_iff_not]
    omega
  have heq : listSelectByOrdinal settings apiConfigs i = .alreadyActive := by
    simp only [listSelectByOrdinal, hguard, Bool.false_eq_true, if_false,
      hsel, hcur, hname, if_true]
  exact ⟨heq, by rw [heq]; rfl⟩

/-- A settings document whose `_configName` is "A", matching `configA` by
name, used by the C8 witness. -/
def settingsActiveA : JValue := .obj
  [("_configName", .str "A"),
   ("env", .obj [("ANTHROPIC_AUTH_TOKEN", .str "sk-aaaa"),
                 ("ANTHROPIC_BASE_URL", .str "https://x")])]

/-- C8 witness: with "A" active, selecting ordinal 1 (which is `configA`)
reports "already active" and does not write. -/
theorem C8_witness :
    1 ≤ 1 ∧
    [configA, configB][1 - 1]? = some configA ∧
    getCurrentConfig settingsActiveA [configA, configB] = some configA ∧
    strictEq (configA.get "name") (configA.get "name") = true ∧
    (listSelectByOrdinal settingsActiveA [configA, configB] 1 = .alreadyActive ∧
      (listSelectByOrdinal settingsActiveA [configA, configB] 1).writesSettings =
        false) :=
  ⟨by decide, rfl, rfl, rfl,
   C8_selecting_active_config_is_noop settingsActiveA [configA, configB] 1
     configA configA (by decide) rfl rfl rfl⟩

end CCS
